import Mathlib

/-!
Shallow embedding of `water_alerts.py` (a water-disruption RSS notifier).

Modelling choices:
* Timestamps (`time.time()` values) are modelled as `Int` seconds.  The
  Python code only compares and subtracts them, so the integer model
  preserves every ordering fact the claims depend on.
* A loaded ledger JSON object (the result of `json.load` on
  `last_notification.json`) is a `LedgerDict`: each of the three expected
  keys may be present or absent, and `hasOtherKeys` records whether the
  object carries any key outside those three (Python dict truthiness
  `if not last_notification` is "the dict has no key at all").
* The ledger file on disk is a `FileState` (absent, or a string of
  content).  `load_last_notification` is `loadFile`; `json.dump` of the
  record written by `save_last_notification` is `encodeLedger`, and
  `decodeLedger` parses exactly that shape (plus the empty object)
  back, failing on anything else — a torn write therefore decodes to
  `none`, which `loadFile` surfaces as an error, mirroring the
  uncaught `json.JSONDecodeError`.
* `should_send_notification` in Python reads the ledger file and the
  wall clock internally; the pure core of its decision logic is
  embedded with the loaded dict and the sampled time lifted to
  parameters, and `shouldSendWorld` re-attaches those two implicit
  inputs as an explicit `World` (file content plus clock).
* `check_disruptions` scans feedparser entries; a `RawEntry` carries the
  optional `summary` / `description` / `id` / `title` attributes, the
  `str(entry)` fallback text, and a `raises` flag meaning "processing
  this entry raises an exception" (the per-entry `try`/`except` then
  continues with the next entry).
-/

namespace WaterAlerts

/-- The dict built by `check_disruptions` for a matching entry:
`{'id': ..., 'title': ..., 'description': ...}` (all keys always set). -/
structure Match where
  id : String
  title : String
  description : String
deriving DecidableEq

/-- A JSON object loaded from `last_notification.json`.  Each expected key
is optional; `hasOtherKeys` is true when the object has further keys, so
that Python truthiness of the dict is modelled exactly. -/
structure LedgerDict where
  timestamp : Option Int
  disruption_id : Option String
  description : Option String
  hasOtherKeys : Bool
deriving DecidableEq

/-- The empty JSON object `\x7b\x7d`, and also what
`load_last_notification` returns on `FileNotFoundError`. -/
def emptyLedgerDict : LedgerDict := ⟨none, none, none, false⟩

/-- Python truthiness test `not last_notification` (a dict is falsy iff it
has no keys). -/
def LedgerDict.isEmptyDict (d : LedgerDict) : Bool :=
  d.timestamp.isNone && d.disruption_id.isNone && d.description.isNone && !d.hasOtherKeys

/-- `listPrefixEq n h` is true iff `n` is a prefix of `h` (helper for the
Python substring operator `in`). -/
def listPrefixEq : List Char → List Char → Bool
  | [], _ => true
  | _ :: _, [] => false
  | a :: as, b :: bs => a = b && listPrefixEq as bs

/-- `listContainsSub n h` is true iff `n` occurs contiguously in `h`
(Python `n in h` on strings, spelled out on character lists). -/
def listContainsSub (needle : List Char) : List Char → Bool
  | [] => listPrefixEq needle []
  | c :: rest => listPrefixEq needle (c :: rest) || listContainsSub needle (rest)

/-- Python `needle.lower() in hay.lower()` from `check_disruptions`
(`str.lower`, spelled as a character map so that it evaluates by
reduction). -/
def lowerInText (needle hay : String) : Bool :=
  listContainsSub (needle.data.map Char.toLower) (hay.data.map Char.toLower)

/-- One feedparser entry as `check_disruptions` observes it. -/
structure RawEntry where
  summary : Option String
  description : Option String
  id : Option String
  title : Option String
  asString : String
  raises : Bool
deriving DecidableEq

/-- Body text of an entry: `entry.summary` if present, else
`entry.description` if present, else `str(entry)` (lines 56–61). -/
def entryBody (e : RawEntry) : String :=
  e.summary.getD (e.description.getD e.asString)

/-- `check_disruptions(feed, area)` (lines 43–75): scan entries in order;
an entry whose processing raises is skipped by the per-entry
`try`/`except`; the first entry whose body contains `area`
case-insensitively is returned as a `Match` with `getattr` defaults `""`
for `id` and `title`; no match at all gives `None`. -/
def check_disruptions : List RawEntry → String → Option Match
  | [], _ => none
  | e :: rest, area =>
    if e.raises then check_disruptions rest area
    else if lowerInText area (entryBody e) then
      some ⟨e.id.getD "", e.title.getD "", entryBody e⟩
    else check_disruptions rest area

/-- JSON string escaping as `json.dump` performs it on the quote and
backslash characters (the strings the program handles contain no control
characters, which are the only other escaped class). -/
def escapeJson (s : String) : String :=
  ⟨(s.data.map (fun c => if c = '"' ∨ c = '\\' then ['\\', c] else [c])).flatten⟩

/-- The exact text `json.dump` writes in `save_last_notification` for the
record `{'timestamp': ts, 'disruption_id': i, 'description': d}`. -/
def encodeLedger (ts : Int) (disruption_id description : String) : String :=
  "\x7b\"timestamp\": " ++ toString ts ++ ", \"disruption_id\": \"" ++
    escapeJson disruption_id ++ "\", \"description\": \"" ++
    escapeJson description ++ "\"\x7d"

/-- Consume an expected literal prefix, returning the rest of the input. -/
def expectLit : List Char → List Char → Option (List Char)
  | [], cs => some cs
  | _ :: _, [] => none
  | l :: ls, c :: cs => if c = l then expectLit ls cs else none

/-- Read a JSON string body (the opening quote already consumed) up to its
closing quote, undoing backslash escapes; fails at end of input. -/
def readJStr : List Char → Option (List Char × List Char)
  | [] => none
  | c :: rest =>
    if c = '"' then some ([], rest)
    else if c = '\\' then
      match rest with
      | [] => none
      | c2 :: rest2 => (readJStr rest2).map (fun p => (c2 :: p.1, p.2))
    else (readJStr rest).map (fun p => (c :: p.1, p.2))

/-- Numeric value of a digit list. -/
def digitsToNat (ds : List Char) : Nat :=
  ds.foldl (fun n c => n * 10 + (c.toNat - 48)) 0

/-- Parse the serialized ledger record (or the empty object); any other
content — in particular any truncated prefix of a record — fails, as
`json.load` raises `JSONDecodeError` on it. -/
def decodeChars (cs : List Char) : Option LedgerDict :=
  match cs with
  | ['\x7b', '\x7d'] => some emptyLedgerDict
  | _ =>
    match expectLit ("\x7b\"timestamp\": ").data cs with
    | none => none
    | some r1 =>
      let ds := r1.takeWhile Char.isDigit
      let r2 := r1.dropWhile Char.isDigit
      if ds.isEmpty then none
      else
        match expectLit (", \"disruption_id\": \"").data r2 with
        | none => none
        | some r3 =>
          match readJStr r3 with
          | none => none
          | some (idChars, r4) =>
            match expectLit (", \"description\": \"").data r4 with
            | none => none
            | some r5 =>
              match readJStr r5 with
              | none => none
              | some (descChars, r6) =>
                match r6 with
                | ['\x7d'] =>
                  some ⟨some (Int.ofNat (digitsToNat ds)), some ⟨idChars⟩,
                    some ⟨descChars⟩, false⟩
                | _ => none

/-- `json.load` on a string of file content. -/
def decodeLedger (s : String) : Option LedgerDict :=
  decodeChars s.data

/-- The ledger file `last_notification.json` on disk. -/
inductive FileState
  | absent
  | content (s : String)
deriving DecidableEq

/-- `load_last_notification` (lines 89–95): a missing file yields the
empty dict (`FileNotFoundError` branch); content that fails to parse
raises, which the function does not catch — modelled as `Except.error`. -/
def loadFile : FileState → Except Unit LedgerDict
  | FileState.absent => Except.ok emptyLedgerDict
  | FileState.content s =>
    match decodeLedger s with
    | some d => Except.ok d
    | none => Except.error ()

/-- `save_last_notification` interrupted mid-way (lines 97–106).  The
Python `open('last_notification.json', 'w')` truncates the file at once
and `json.dump` then streams `payload`.  Interruption point `none` is
"before the open" (old content intact); `some j` is "after the open with
`j` characters of the payload flushed" (`j ≥ payload.length` is a
completed write). -/
def interruptedSave (old : FileState) (payload : String) : Option Nat → FileState
  | none => old
  | some j => FileState.content ⟨payload.data.take j⟩

/-- The pure core of `should_send_notification` (lines 108–130), with the
internally loaded dict and the internally sampled `time.time()` lifted to
the parameters `last_notification` and `current_time`. -/
def should_send_notification (disruption : Match) (last_notification : LedgerDict)
    (current_time min_interval_minutes : Int) : Bool :=
  if last_notification.isEmptyDict then true
  else
    let time_since_last := current_time - last_notification.timestamp.getD 0
    if time_since_last < min_interval_minutes * 60 then false
    else if some disruption.id ≠ last_notification.disruption_id then true
    else if some disruption.description ≠ last_notification.description then true
    else false

/-- The implicit inputs `should_send_notification` actually reads inside
its body: the ledger file (line 110) and the wall clock (line 115). -/
structure World where
  file : FileState
  now : Int
deriving DecidableEq

/-- `should_send_notification(disruption, min_interval_minutes)` as the
Python function behaves: its only explicit parameters are the candidate
and the interval, and the ledger dict and current time are read from the
world; a ledger parse error propagates. -/
def shouldSendWorld (disruption : Match) (min_interval_minutes : Int)
    (w : World) : Except Unit Bool :=
  match loadFile w.file with
  | Except.error e => Except.error e
  | Except.ok led =>
    Except.ok (should_send_notification disruption led w.now min_interval_minutes)

/-- Outcome of one orchestrator pass, print/except branches of `main`. -/
inductive Outcome
  | notified
  | skipped
  | noMatch
  | errorReported
deriving DecidableEq

/-- The decision-and-send part of `main` (lines 155–168) for one pass:
given the extracted candidate, whether the transport call succeeds
(`send_pushover_notification` raises on failure, lines 77–87), and the
world.  `save_last_notification` runs only after a successful send and
writes the record derived from the candidate and the clock; any raised
exception reaches the top-level `except`, leaving the ledger untouched. -/
def mainPass (candidate : Option Match) (transportOk : Bool)
    (min_interval : Int) (w : World) : World × Outcome :=
  match candidate with
  | none => (w, Outcome.noMatch)
  | some d =>
    match loadFile w.file with
    | Except.error _ => (w, Outcome.errorReported)
    | Except.ok led =>
      if should_send_notification d led w.now min_interval then
        if transportOk then
          ({ w with file := FileState.content (encodeLedger w.now d.id d.description) },
            Outcome.notified)
        else (w, Outcome.errorReported)
      else (w, Outcome.skipped)

end WaterAlerts

namespace WaterAlerts

/-- Skipping lemma for the scanner: an entry that raises, or whose body
does not contain the area, contributes nothing to the scan. -/
theorem check_skip (area : String) (e : RawEntry) (rest : List RawEntry)
    (h : e.raises = true ∨ lowerInText area (entryBody e) = false) :
    check_disruptions (e :: rest) area = check_disruptions rest area := by
  rcases h with h | h
  · simp [check_disruptions, h]
  · simp [check_disruptions, h]

/-- Claim C1: with a present ledger record whose timestamp is within the
cooldown window (`now - ts < min_interval_minutes * 60`), the decision is
Suppress (`false`), whatever the candidate's or ledger's id and
description are. -/
theorem cooldown_suppresses_unconditionally (d : Match) (led : LedgerDict)
    (now minI ts : Int) (hts : led.timestamp = some ts)
    (hcool : now - ts < minI * 60) :
    should_send_notification d led now minI = false := by
  have hne : led.isEmptyDict = false := by
    simp [LedgerDict.isEmptyDict, hts]
  simp [should_send_notification, hne, hts, hcool]

/-- Witness for C1 at a concrete input: id and description both differ,
yet the cooldown alone suppresses. -/
theorem cooldown_suppresses_witness :
    should_send_notification ⟨"newid", "t", "newdesc"⟩
      ⟨some 1000, some "oldid", some "olddesc", false⟩ 1500 30 = false :=
  cooldown_suppresses_unconditionally ⟨"newid", "t", "newdesc"⟩
    ⟨some 1000, some "oldid", some "olddesc", false⟩ 1500 30 1000 rfl (by decide)

/-- Claim C2: once the cooldown has elapsed, a differing id forces Send;
with equal ids a differing description forces Send; with both equal the
decision is Suppress — the id rule is checked first, so it alone decides
whenever the ids differ. -/
theorem post_cooldown_id_description_rules (d : Match) (led : LedgerDict)
    (now minI ts : Int) (lid ldesc : String)
    (hts : led.timestamp = some ts) (hid : led.disruption_id = some lid)
    (hdesc : led.description = some ldesc) (hel : minI * 60 ≤ now - ts) :
    (d.id ≠ lid → should_send_notification d led now minI = true) ∧
    (d.id = lid → d.description ≠ ldesc →
      should_send_notification d led now minI = true) ∧
    (d.id = lid → d.description = ldesc →
      should_send_notification d led now minI = false) := by
  have hne : led.isEmptyDict = false := by
    simp [LedgerDict.isEmptyDict, hts]
  have hnc : ¬ (now - ts < minI * 60) := not_lt.mpr hel
  refine ⟨?_, ?_, ?_⟩
  · intro h
    simp [should_send_notification, hne, hts, hid, hdesc, hnc, h]
  · intro h1 h2
    simp [should_send_notification, hne, hts, hid, hdesc, hnc, h1, h2]
  · intro h1 h2
    simp [should_send_notification, hne, hts, hid, hdesc, hnc, h1, h2]

/-- Witness for C2 at a concrete input: cooldown elapsed and a new id
gives Send. -/
theorem post_cooldown_rules_witness :
    should_send_notification ⟨"a", "t", "x"⟩
      ⟨some 0, some "b", some "x", false⟩ 1800 30 = true :=
  (post_cooldown_id_description_rules ⟨"a", "t", "x"⟩
      ⟨some 0, some "b", some "x", false⟩ 1800 30 0 "b" "x"
      rfl rfl rfl (by decide)).1 (by decide)

/-- Claim C3: with no ledger file on disk (cold start), the decision is
Send for every candidate, every interval and every current time. -/
theorem cold_start_sends (d : Match) (minI now : Int) :
    shouldSendWorld d minI ⟨FileState.absent, now⟩ = Except.ok true := rfl

/-- Claim C4 evaluated at its failing input (the save is not atomic): a
save of a new record over an old one, interrupted right after the
truncating `open('w')` with nothing yet flushed, leaves an empty file
whose load raises — neither the complete old entry nor the complete new
one.  The two uninterrupted endpoints are also evaluated: before the
open, load still yields the old entry; after a completed write, the new
entry. -/
theorem torn_save_empty_file_breaks_load :
    interruptedSave (FileState.content (encodeLedger 1000 "id-1" "old text"))
        (encodeLedger 2000 "id-2" "new text") (some 0) = FileState.content "" ∧
    loadFile (FileState.content "") = Except.error () ∧
    loadFile (interruptedSave
        (FileState.content (encodeLedger 1000 "id-1" "old text"))
        (encodeLedger 2000 "id-2" "new text") none) =
      Except.ok ⟨some 1000, some "id-1", some "old text", false⟩ ∧
    loadFile (interruptedSave
        (FileState.content (encodeLedger 1000 "id-1" "old text"))
        (encodeLedger 2000 "id-2" "new text")
        (some (encodeLedger 2000 "id-2" "new text").length)) =
      Except.ok ⟨some 2000, some "id-2", some "new text", false⟩ :=
  ⟨rfl, rfl, rfl, rfl⟩

/-- Claim C5: a missing ledger file is the normal empty result, not an
error, while content that fails to deserialize is surfaced as an error
and never turned into the empty "no entry" result. -/
theorem load_distinguishes_absence_from_corruption :
    loadFile FileState.absent = Except.ok emptyLedgerDict ∧
    (∀ s : String, decodeLedger s = none →
      loadFile (FileState.content s) = Except.error ()) := by
  refine ⟨rfl, ?_⟩
  intro s h
  simp [loadFile, h]

/-- Witness for C5 at a concrete corrupt file content. -/
theorem load_corruption_witness :
    loadFile (FileState.content "garbage") = Except.error () :=
  load_distinguishes_absence_from_corruption.2 "garbage" rfl

/-- Claim C6: when the decision for a found candidate is Send and the
transport delivery fails, the pass reports an error and leaves the world
— in particular the ledger file — exactly as it was; only a successful
transport call is followed by the save of the record derived from the
candidate and the clock. -/
theorem transport_failure_leaves_ledger_unchanged (d : Match) (minI : Int)
    (w : World) (led : LedgerDict) (hload : loadFile w.file = Except.ok led)
    (hsend : should_send_notification d led w.now minI = true) :
    mainPass (some d) false minI w = (w, Outcome.errorReported) ∧
    (mainPass (some d) true minI w).1.file =
      FileState.content (encodeLedger w.now d.id d.description) := by
  constructor <;> simp [mainPass, hload, hsend]

/-- Witness for C6 at a concrete Send-deciding world. -/
theorem transport_failure_witness :
    mainPass (some ⟨"i", "t", "d"⟩) false 30 ⟨FileState.absent, 5000⟩ =
      (⟨FileState.absent, 5000⟩, Outcome.errorReported) ∧
    (mainPass (some ⟨"i", "t", "d"⟩) true 30 ⟨FileState.absent, 5000⟩).1.file =
      FileState.content (encodeLedger 5000 "i" "d") :=
  transport_failure_leaves_ledger_unchanged ⟨"i", "t", "d"⟩ 30
    ⟨FileState.absent, 5000⟩ emptyLedgerDict rfl rfl

/-- Counterexample to claim C7 as stated: `should_send_notification`'s
only explicit Python parameters are the candidate and the interval, and
with both held fixed the result still changes between two worlds,
because the function reads the ledger file and the wall clock
internally — so it is not a pure function of explicit
`(candidate, ledger entry, min_interval, now)` arguments. -/
theorem decision_reads_ambient_world :
    shouldSendWorld ⟨"a", "t", "x"⟩ 30 ⟨FileState.absent, 0⟩ =
      Except.ok true ∧
    shouldSendWorld ⟨"a", "t", "x"⟩ 30
        ⟨FileState.content (encodeLedger 0 "a" "x"), 10⟩ =
      Except.ok false :=
  ⟨rfl, rfl⟩

/-- Claim C7 as amended: the decision is deterministic in the candidate,
the interval, and the two inputs the function reads for itself — the
ledger file content and the clock; fixing all of them fixes the result. -/
theorem decision_deterministic_given_world (d : Match) (minI : Int)
    (w1 w2 : World) (hf : w1.file = w2.file) (hn : w1.now = w2.now) :
    shouldSendWorld d minI w1 = shouldSendWorld d minI w2 := by
  cases w1
  cases w2
  cases hf
  cases hn
  rfl

/-- Witness for the amended C7 at a concrete input. -/
theorem decision_deterministic_witness :
    shouldSendWorld ⟨"a", "t", "x"⟩ 30 ⟨FileState.absent, 5⟩ =
      shouldSendWorld ⟨"a", "t", "x"⟩ 30 ⟨FileState.absent, 5⟩ :=
  decision_deterministic_given_world ⟨"a", "t", "x"⟩ 30
    ⟨FileState.absent, 5⟩ ⟨FileState.absent, 5⟩ rfl rfl

/-- Claim C8: with every earlier entry either raising or failing the
case-insensitive body test, the scan returns the first matching entry's
derived record — body by the summary / description / string-form
precedence baked into `entryBody`, id and title defaulting to `""` — and
the result does not depend on anything placed after that entry. -/
theorem extractor_first_match_short_circuit (area : String)
    (pre : List RawEntry) (e : RawEntry) (rest rest' : List RawEntry)
    (hpre : ∀ e' ∈ pre, e'.raises = true ∨ lowerInText area (entryBody e') = false)
    (he : e.raises = false)
    (hm : lowerInText area (entryBody e) = true) :
    check_disruptions (pre ++ e :: rest) area =
      some ⟨e.id.getD "", e.title.getD "", entryBody e⟩ ∧
    check_disruptions (pre ++ e :: rest) area =
      check_disruptions (pre ++ e :: rest') area := by
  induction pre with
  | nil =>
    constructor <;> simp [check_disruptions, he, hm]
  | cons p ps ih =>
    have hp := hpre p (by simp)
    have hrec := ih (fun e' he' => hpre e' (by simp [he']))
    constructor
    · rw [List.cons_append, check_skip area p (ps ++ e :: rest) hp]
      exact hrec.1
    · rw [List.cons_append, check_skip area p (ps ++ e :: rest) hp,
        List.cons_append, check_skip area p (ps ++ e :: rest') hp]
      exact hrec.2

/-- Witness for C8: `[A(no match), B(match), C(match)]` returns `B`'s
record, and the result is unchanged when `C` is removed. -/
theorem extractor_short_circuit_witness :
    check_disruptions
        ([(⟨some "no water news today", none, none, none, "", false⟩ : RawEntry)] ++
          (⟨some "Disruption in Riverside due to main break", none,
              some "b-id", some "B", "", false⟩ : RawEntry) ::
            [(⟨some "Riverside again", none, some "c-id", some "C", "", false⟩ : RawEntry)])
        "riverside" =
      some ⟨"b-id", "B", "Disruption in Riverside due to main break"⟩ ∧
    check_disruptions
        ([(⟨some "no water news today", none, none, none, "", false⟩ : RawEntry)] ++
          (⟨some "Disruption in Riverside due to main break", none,
              some "b-id", some "B", "", false⟩ : RawEntry) ::
            [(⟨some "Riverside again", none, some "c-id", some "C", "", false⟩ : RawEntry)])
        "riverside" =
      check_disruptions
        ([(⟨some "no water news today", none, none, none, "", false⟩ : RawEntry)] ++
          (⟨some "Disruption in Riverside due to main break", none,
              some "b-id", some "B", "", false⟩ : RawEntry) :: [])
        "riverside" :=
  extractor_first_match_short_circuit "riverside"
    [⟨some "no water news today", none, none, none, "", false⟩]
    ⟨some "Disruption in Riverside due to main break", none, some "b-id", some "B", "", false⟩
    [⟨some "Riverside again", none, some "c-id", some "C", "", false⟩] []
    (by decide) rfl (by decide)

/-- Claim C9: an entry whose processing raises is skipped — the scan of
the remaining entries is unaffected, so a single bad entry never aborts
it — and a scan in which every entry raises or fails the body test
returns the empty result. -/
theorem extractor_skips_bad_entries_else_none :
    (∀ (area : String) (pre : List RawEntry) (bad : RawEntry)
        (rest : List RawEntry), bad.raises = true →
      check_disruptions (pre ++ bad :: rest) area =
        check_disruptions (pre ++ rest) area) ∧
    (∀ (area : String) (entries : List RawEntry),
      (∀ e ∈ entries, e.raises = true ∨ lowerInText area (entryBody e) = false) →
      check_disruptions entries area = none) := by
  constructor
  · intro area pre bad rest hbad
    induction pre with
    | nil => exact check_skip area bad rest (Or.inl hbad)
    | cons p ps ih =>
      rw [List.cons_append, List.cons_append]
      simp only [check_disruptions]
      rw [ih]
  · intro area entries h
    induction entries with
    | nil => rfl
    | cons e es ih =>
      have he := h e (by simp)
      rw [check_skip area e es he]
      exact ih (fun e' he' => h e' (by simp [he']))

/-- Witness for C9: a raising entry drops out of a concrete scan, and a
concrete all-non-matching scan returns the empty result. -/
theorem extractor_skip_witness :
    check_disruptions
        ([] ++ (⟨none, none, none, none, "x", true⟩ : RawEntry) ::
          [(⟨some "Riverside base", none, some "c", some "C", "", false⟩ : RawEntry)])
        "riverside" =
      check_disruptions
        ([] ++ [(⟨some "Riverside base", none, some "c", some "C", "", false⟩ : RawEntry)])
        "riverside" ∧
    check_disruptions [(⟨some "calm seas", none, none, none, "", false⟩ : RawEntry)]
        "riverside" = none :=
  ⟨extractor_skips_bad_entries_else_none.1 "riverside" []
      ⟨none, none, none, none, "x", true⟩
      [⟨some "Riverside base", none, some "c", some "C", "", false⟩] rfl,
   extractor_skips_bad_entries_else_none.2 "riverside"
      [⟨some "calm seas", none, none, none, "", false⟩] (by decide)⟩

/-- Claim C10: a non-empty ledger record without a timestamp key gets the
default `0`, so once the current time is at least the cooldown the
decision reduces to the id/description comparison rules; an empty record
instead takes the cold-start branch and yields Send. -/
theorem missing_timestamp_treated_as_epoch :
    (∀ (d : Match) (led : LedgerDict) (now minI : Int),
      led.isEmptyDict = false → led.timestamp = none → minI * 60 ≤ now →
      (should_send_notification d led now minI = true ↔
        (some d.id ≠ led.disruption_id ∨
          some d.description ≠ led.description))) ∧
    (∀ (d : Match) (now minI : Int),
      should_send_notification d emptyLedgerDict now minI = true) := by
  constructor
  · intro d led now minI hne hts hreal
    have hnc : ¬ now < minI * 60 := not_lt.mpr hreal
    by_cases h1 : some d.id = led.disruption_id <;>
      by_cases h2 : some d.description = led.description <;>
        simp [should_send_notification, hne, hts, hnc, hreal, h1, h2]
  · intro d now minI
    rfl

/-- Witness for C10 at a concrete input: timestamp absent, an hour-old
clock reading, id differing from the stored one. -/
theorem missing_timestamp_witness :
    (should_send_notification ⟨"a", "t", "x"⟩ ⟨none, some "z", none, false⟩
        1800 30 = true ↔
      ((some "a" : Option String) ≠ some "z" ∨
        (some "x" : Option String) ≠ none)) ∧
    should_send_notification ⟨"a", "t", "x"⟩ emptyLedgerDict 0 30 = true :=
  ⟨missing_timestamp_treated_as_epoch.1 ⟨"a", "t", "x"⟩
      ⟨none, some "z", none, false⟩ 1800 30 rfl rfl (by decide),
   missing_timestamp_treated_as_epoch.2 ⟨"a", "t", "x"⟩ 0 30⟩

end WaterAlerts
